import Mathlib

/-!
Shallow embedding of `src/server.js` (an Express HTTP wallet backend built on
ethers.js) and proofs about its request handlers.

Modelling conventions:
* JavaScript numbers are modelled as `ℚ` (exact rationals; float rounding is
  not modelled).  `NaN` is modelled as `none` in `Option ℚ`: every comparison
  with `NaN` is false, matching JS semantics on the comparisons that occur in
  the source.
* JSON request-body fields are `JVal` (absent, string, or number) for amount
  fields and `Option String` for address fields (the source only ever treats
  them as strings).
* Calls to the JSON-RPC provider (`getBalance`, `getFeeData`,
  `getTransactionCount`, `broadcastTransaction`, `wait`) and to the wallet
  (`signTransaction`) are recorded in an effect trace, in source order.  Each
  provider call returns an `Except String` value drawn from a `ChainClient`
  record, so that a failing provider call and the handler `catch` blocks can
  be modelled.
* `res.json(...)` bodies are association lists of field name × `JField`, in
  the field order of the source.  `error.code` on a generic `Error` is
  `undefined` and is dropped by `res.json`, so `catch` bodies carry only the
  `error` field.
-/

deriving instance DecidableEq for Except

/-- A JSON request-body field as the handlers see it: absent (`undefined`),
a string, or a number. -/
inductive JVal where
  | undef : JVal
  | str (s : String) : JVal
  | num (q : ℚ) : JVal
deriving DecidableEq

/-- JavaScript truthiness of a `JVal` (`undefined`, `""` and `0` are falsy). -/
def truthyJ : JVal → Bool
  | .undef => false
  | .str s => s ≠ ""
  | .num q => q ≠ 0

/-- JavaScript truthiness of an optional string field. -/
def truthyS : Option String → Bool
  | none => false
  | some s => s ≠ ""

/-- JS `a || b` on optional string fields (`undefined` and `""` are falsy). -/
def jsOrS (a b : Option String) : Option String :=
  if truthyS a then a else b

/-- JS `a || b` on numbers-or-NaN (`NaN` and `0` are falsy). -/
def jsOrN (a b : Option ℚ) : Option ℚ :=
  match a with
  | some q => if q = 0 then b else a
  | none => b

/-- JS `a || d` where `d` is a nonzero numeric literal, so the result is a
definite number. -/
def jsOrD (a : Option ℚ) (d : ℚ) : ℚ :=
  match a with
  | some q => if q = 0 then d else q
  | none => d

/-- Value of a list of decimal digit characters. -/
def digitsVal (cs : List Char) : ℕ :=
  cs.foldl (fun acc c => 10 * acc + (c.toNat - '0'.toNat)) 0

/-- Parse an optional sign, integer digits and an optional fractional part
from the front of a character list; returns the value and the unconsumed
remainder, or `none` when no digit was consumed.  This is the numeric core
shared by the models of `parseFloat` (prefix parse) and `ethers.parseEther`
(full parse).  Exponent notation is not modelled (it does not occur in the
inputs the claims are about). -/
def parseDec (cs : List Char) : Option (ℚ × List Char) :=
  let (sign, cs1) : ℚ × List Char :=
    match cs with
    | '-' :: t => (-1, t)
    | '+' :: t => (1, t)
    | _ => (1, cs)
  let intPart := cs1.takeWhile Char.isDigit
  let rest1 := cs1.dropWhile Char.isDigit
  let (fracPart, rest2) : List Char × List Char :=
    match rest1 with
    | '.' :: t => (t.takeWhile Char.isDigit, t.dropWhile Char.isDigit)
    | _ => ([], rest1)
  if intPart.isEmpty && fracPart.isEmpty then none
  else some (sign * ((digitsVal intPart : ℚ)
      + (digitsVal fracPart : ℚ) / (10 : ℚ) ^ fracPart.length), rest2)

/-- Model of JS `parseFloat` on a string: skip leading whitespace, parse the
longest numeric prefix, `NaN` (= `none`) when no digit is found. -/
def jsParseFloat (s : String) : Option ℚ :=
  (parseDec (s.toList.dropWhile Char.isWhitespace)).map (·.1)

/-- `parseFloat` applied to a request-body field (`parseFloat(undefined)` is
`NaN`; a number is returned unchanged). -/
def parseFloatJ : JVal → Option ℚ
  | .undef => none
  | .str s => jsParseFloat s
  | .num q => some q

/-- JS `a < b` where either side may be `NaN`: any comparison with `NaN` is
false. -/
def floatLt (a b : Option ℚ) : Bool :=
  match a, b with
  | some x, some y => decide (x < y)
  | _, _ => false

/-- Hexadecimal digit. -/
def isHexDigit (c : Char) : Bool :=
  c.isDigit || ('a' ≤ c && c ≤ 'f') || ('A' ≤ c && c ≤ 'F')

/-- Model of `ethers.isAddress`: `0x` followed by 40 hex digits.  EIP-55
checksum verification of mixed-case addresses requires keccak and is not
modelled; uniform-case addresses (the ones used in this development) are
accepted exactly as ethers accepts them. -/
def isAddress (s : String) : Bool :=
  let cs := s.toList
  s.length = 42 && decide (cs.take 2 = ['0', 'x'])
    && (cs.drop 2).all isHexDigit
    && ((cs.drop 2).all (fun c => c.isDigit || c.isLower)
        || (cs.drop 2).all (fun c => c.isDigit || c.isUpper))

/-- JS `String.prototype.toLowerCase` (ASCII suffices for hex addresses). -/
def lowerStr (s : String) : String :=
  ⟨s.toList.map Char.toLower⟩

/-- `ethers.formatEther` followed by `parseFloat`: wei to ETH, exact in the
rational model. -/
def formatEther (wei : ℕ) : ℚ :=
  (wei : ℚ) / 10 ^ 18

/-- Model of `ethers.parseEther(v.toString())` on a raw request field: a
number scales to wei; a string must be a complete decimal numeral, otherwise
ethers throws; `undefined.toString()` would itself throw. -/
def parseEtherJ : JVal → Except String ℚ
  | .undef => .error "Cannot read properties of undefined"
  | .num q => .ok (q * 10 ^ 18)
  | .str s =>
    match parseDec s.toList with
    | some (q, []) => .ok (q * 10 ^ 18)
    | _ => .error "invalid FixedNumber string"

/-- Model of `ethers.parseEther(x.toString())` where `x` is a JS number that
may be `NaN` (`parseEther("NaN")` throws). -/
def parseEtherOpt : Option ℚ → Except String ℚ
  | none => .error "invalid FixedNumber string"
  | some q => .ok (q * 10 ^ 18)

/-- The transaction object built by every transfer endpoint.  The field
`toAddr` models the JS field `to` (`to` is a reserved token in Lean). -/
structure Tx where
  toAddr : Option String
  value : ℚ
  nonce : ℕ
  gasLimit : ℕ
  gasPrice : ℕ
  chainId : ℕ
deriving DecidableEq

/-- Receipt returned by `txResponse.wait(1)`. -/
structure Receipt where
  blockNumber : ℕ
  gasUsed : ℕ
  gasPrice : ℕ
deriving DecidableEq

/-- One observable call to the provider or to the signing wallet, in source
order. -/
inductive Eff where
  | getBalance : Eff
  | getFeeData : Eff
  | getTransactionCount (blockTag : String) : Eff
  | signTransaction (tx : Tx) : Eff
  | broadcastTransaction (tx : Tx) : Eff
  | wait (confirmations : ℕ) : Eff
deriving DecidableEq

/-- Results the JSON-RPC provider returns during one request; an `Except`
error models a rejected provider call. -/
structure ChainClient where
  balanceWei : Except String ℕ
  gasPriceWei : Except String ℕ
  pendingNonce : Except String ℕ
  broadcastHash : Except String String
  waitReceipt : Except String Receipt

/-- Process-lifetime wallet identity plus the provider. -/
structure Env where
  walletAddress : String
  chain : ChainClient

/-- A JSON response field value. -/
inductive JField where
  | str (s : String) : JField
  | num (q : ℚ) : JField
  | bool (b : Bool) : JField
  | val (v : JVal) : JField
  | null : JField
deriving DecidableEq

/-- Result of one HTTP request: a JSON response with a status, or an error
that escaped the handler (no `try`/`catch` on its path). -/
inductive Outcome where
  | resp (status : ℕ) (body : List (String × JField)) : Outcome
  | escaped (err : String) : Outcome
deriving DecidableEq

/-- Model of `wallet.signTransaction`: ethers throws when `tx.to` is a string
that is not a valid address; `tx.to = undefined` is a deploy transaction and
signs fine.  The signed payload is represented by the transaction itself. -/
def signTransaction (tx : Tx) : Except String Tx :=
  match tx.toAddr with
  | some s => if isAddress s then .ok tx else .error "invalid address"
  | none => .ok tx

/-- Body of `POST /withdraw`. -/
structure WithdrawReq where
  toAddress : Option String
  amountETH : JVal

/-- `POST /withdraw` handler (`src/server.js` lines 26–107): validation,
self-transfer check, balance check, then build/sign/broadcast/wait. -/
def withdraw (env : Env) (req : WithdrawReq) : Outcome × List Eff :=
  if !(truthyS req.toAddress && truthyJ req.amountETH) then
    (.resp 400 [("error", .str "Missing parameters")], [])
  else
    let toAddr := req.toAddress.getD ""
    if !isAddress toAddr then
      (.resp 400 [("error", .str "Invalid address")], [])
    else if lowerStr toAddr == lowerStr env.walletAddress then
      (.resp 400 [("error", .str "Cannot send to backend wallet")], [])
    else
      match env.chain.balanceWei with
      | .error e => (.resp 500 [("error", .str e)], [.getBalance])
      | .ok w =>
        let balanceETH := formatEther w
        if floatLt (some balanceETH) (parseFloatJ req.amountETH) then
          (.resp 400 [("error", .str "Insufficient backend balance"),
                      ("balance", .num balanceETH)], [.getBalance])
        else
          match env.chain.gasPriceWei with
          | .error e => (.resp 500 [("error", .str e)],
              [.getBalance, .getFeeData])
          | .ok gp =>
            match env.chain.pendingNonce with
            | .error e => (.resp 500 [("error", .str e)],
                [.getBalance, .getFeeData, .getTransactionCount "pending"])
            | .ok n =>
              match parseEtherJ req.amountETH with
              | .error e => (.resp 500 [("error", .str e)],
                  [.getBalance, .getFeeData, .getTransactionCount "pending"])
              | .ok v =>
                let tx : Tx :=
                  { toAddr := some toAddr, value := v, nonce := n,
                    gasLimit := 21000, gasPrice := gp, chainId := 1 }
                match signTransaction tx with
                | .error e => (.resp 500 [("error", .str e)],
                    [.getBalance, .getFeeData, .getTransactionCount "pending",
                     .signTransaction tx])
                | .ok signed =>
                  match env.chain.broadcastHash with
                  | .error e => (.resp 500 [("error", .str e)],
                      [.getBalance, .getFeeData,
                       .getTransactionCount "pending",
                       .signTransaction tx, .broadcastTransaction signed])
                  | .ok h =>
                    match env.chain.waitReceipt with
                    | .error e => (.resp 500 [("error", .str e)],
                        [.getBalance, .getFeeData,
                         .getTransactionCount "pending",
                         .signTransaction tx, .broadcastTransaction signed,
                         .wait 1])
                    | .ok r =>
                      (.resp 200 [("success", .bool true),
                          ("txHash", .str h),
                          ("from", .str env.walletAddress),
                          ("to", .str toAddr),
                          ("amount", .val req.amountETH),
                          ("blockNumber", .num r.blockNumber),
                          ("gasUsed", .str (toString r.gasUsed)),
                          ("effectiveGasPrice", .str (toString r.gasPrice))],
                       [.getBalance, .getFeeData,
                        .getTransactionCount "pending",
                        .signTransaction tx, .broadcastTransaction signed,
                        .wait 1])

/-- `JSON.stringify` renders `NaN` as `null`; response fields holding a
possibly-`NaN` number are rendered with this helper. -/
def numField : Option ℚ → JField
  | some q => .num q
  | none => .null

/-- Response field holding a possibly-absent string. -/
def strField : Option String → JField
  | some s => .str s
  | none => .null

/-- Body of the four treasury-moving endpoints (all read the same optional
fields).  The field `toField` models the JS body field `to` (`to` is a
reserved token in Lean). -/
structure VariantReq where
  amountETH : JVal
  amountUSD : JVal
  treasury : Option String
  toField : Option String
  toAddress : Option String
  percentage : JVal

/-- `const destination = treasury || to || toAddress` (line 227). -/
def convertDestination (req : VariantReq) : Option String :=
  jsOrS (jsOrS req.treasury req.toField) req.toAddress

/-- `const ethAmount = parseFloat(amountETH) || (parseFloat(amountUSD) / 3450)`
(line 228); the result may be `NaN` (= `none`). -/
def convertAmount (req : VariantReq) : Option ℚ :=
  jsOrN (parseFloatJ req.amountETH) ((parseFloatJ req.amountUSD).map (· / 3450))

/-- `POST /convert-earnings-to-eth` handler (lines 224–282). -/
def convertEarningsToEth (env : Env) (req : VariantReq) : Outcome × List Eff :=
  let destination := convertDestination req
  let ethAmount := convertAmount req
  if !truthyS destination then
    (.resp 400 [("error", .str "Missing destination address")], [])
  else
    match env.chain.balanceWei with
    | .error e => (.resp 500 [("error", .str e)], [.getBalance])
    | .ok w =>
      let balanceETH := formatEther w
      if floatLt (some balanceETH) (ethAmount.map (· + 1/500)) then
        (.resp 400 [("error", .str "Insufficient backend balance for conversion"),
                    ("balance", .num balanceETH),
                    ("required", numField (ethAmount.map (· + 1/500)))],
         [.getBalance])
      else
        match env.chain.gasPriceWei with
        | .error e => (.resp 500 [("error", .str e)], [.getBalance, .getFeeData])
        | .ok gp =>
          match env.chain.pendingNonce with
          | .error e => (.resp 500 [("error", .str e)],
              [.getBalance, .getFeeData, .getTransactionCount "pending"])
          | .ok n =>
            match parseEtherOpt ethAmount with
            | .error e => (.resp 500 [("error", .str e)],
                [.getBalance, .getFeeData, .getTransactionCount "pending"])
            | .ok v =>
              let tx : Tx :=
                { toAddr := destination, value := v, nonce := n,
                  gasLimit := 21000, gasPrice := gp, chainId := 1 }
              match signTransaction tx with
              | .error e => (.resp 500 [("error", .str e)],
                  [.getBalance, .getFeeData, .getTransactionCount "pending",
                   .signTransaction tx])
              | .ok signed =>
                match env.chain.broadcastHash with
                | .error e => (.resp 500 [("error", .str e)],
                    [.getBalance, .getFeeData, .getTransactionCount "pending",
                     .signTransaction tx, .broadcastTransaction signed])
                | .ok h =>
                  match env.chain.waitReceipt with
                  | .error e => (.resp 500 [("error", .str e)],
                      [.getBalance, .getFeeData,
                       .getTransactionCount "pending",
                       .signTransaction tx, .broadcastTransaction signed,
                       .wait 1])
                  | .ok r =>
                    (.resp 200 [("success", .bool true),
                        ("txHash", .str h),
                        ("from", .str env.walletAddress),
                        ("to", strField destination),
                        ("amount", numField ethAmount),
                        ("amountUSD", numField (ethAmount.map (· * 3450))),
                        ("blockNumber", .num r.blockNumber),
                        ("gasUsed", .str (toString r.gasUsed))],
                     [.getBalance, .getFeeData, .getTransactionCount "pending",
                      .signTransaction tx, .broadcastTransaction signed,
                      .wait 1])

/-- `const destination = treasury || to || toAddress || wallet.address`
(line 288): the wallet's own address is the default destination. -/
def fundDestination (walletAddress : String) (req : VariantReq) : Option String :=
  jsOrS (jsOrS (jsOrS req.treasury req.toField) req.toAddress) (some walletAddress)

/-- `const ethAmount = parseFloat(amountETH) || (parseFloat(amountUSD) / 3450)
|| 0.01` (line 289): always a definite number. -/
def fundAmount (req : VariantReq) : ℚ :=
  jsOrD (jsOrN (parseFloatJ req.amountETH)
      ((parseFloatJ req.amountUSD).map (· / 3450))) (1/100)

/-- `POST /fund-from-earnings` handler (lines 285–329). -/
def fundFromEarnings (env : Env) (req : VariantReq) : Outcome × List Eff :=
  let destination := fundDestination env.walletAddress req
  let ethAmount := fundAmount req
  match env.chain.balanceWei with
  | .error e => (.resp 500 [("error", .str e)], [.getBalance])
  | .ok w =>
    let balanceETH := formatEther w
    if balanceETH < ethAmount + 1/500 then
      (.resp 400 [("error", .str "Insufficient backend balance"),
                  ("balance", .num balanceETH)], [.getBalance])
    else
      match env.chain.gasPriceWei with
      | .error e => (.resp 500 [("error", .str e)], [.getBalance, .getFeeData])
      | .ok gp =>
        match env.chain.pendingNonce with
        | .error e => (.resp 500 [("error", .str e)],
            [.getBalance, .getFeeData, .getTransactionCount "pending"])
        | .ok n =>
          let tx : Tx :=
            { toAddr := destination, value := ethAmount * 10 ^ 18, nonce := n,
              gasLimit := 21000, gasPrice := gp, chainId := 1 }
          match signTransaction tx with
          | .error e => (.resp 500 [("error", .str e)],
              [.getBalance, .getFeeData, .getTransactionCount "pending",
               .signTransaction tx])
          | .ok signed =>
            match env.chain.broadcastHash with
            | .error e => (.resp 500 [("error", .str e)],
                [.getBalance, .getFeeData, .getTransactionCount "pending",
                 .signTransaction tx, .broadcastTransaction signed])
            | .ok h =>
              match env.chain.waitReceipt with
              | .error e => (.resp 500 [("error", .str e)],
                  [.getBalance, .getFeeData, .getTransactionCount "pending",
                   .signTransaction tx, .broadcastTransaction signed, .wait 1])
              | .ok r =>
                (.resp 200 [("success", .bool true),
                    ("txHash", .str h),
                    ("from", .str env.walletAddress),
                    ("to", strField destination),
                    ("amount", .num ethAmount),
                    ("blockNumber", .num r.blockNumber)],
                 [.getBalance, .getFeeData, .getTransactionCount "pending",
                  .signTransaction tx, .broadcastTransaction signed, .wait 1])

/-- `const destination = treasury || to || toAddress` (line 334). -/
def profitsDestination (req : VariantReq) : Option String :=
  jsOrS (jsOrS req.treasury req.toField) req.toAddress

/-- Amount resolution of `/withdraw-profits-to-treasury` (lines 341–344):
`parseFloat(amountETH) || 0.01`, overridden by
`(balanceETH * parseFloat(percentage) / 100) - 0.002` when `percentage` is
truthy; `NaN` (= `none`) when `percentage` is truthy but unparsable. -/
def profitsAmount (balanceETH : ℚ) (req : VariantReq) : Option ℚ :=
  if truthyJ req.percentage then
    (parseFloatJ req.percentage).map (fun p => balanceETH * p / 100 - 1/500)
  else some (jsOrD (parseFloatJ req.amountETH) (1/100))

/-- `POST /withdraw-profits-to-treasury` handler (lines 332–375). -/
def withdrawProfitsToTreasury (env : Env) (req : VariantReq) :
    Outcome × List Eff :=
  let destination := profitsDestination req
  match env.chain.balanceWei with
  | .error e => (.resp 500 [("error", .str e)], [.getBalance])
  | .ok w =>
    let balanceETH := formatEther w
    let ethAmount := profitsAmount balanceETH req
    if floatLt (some balanceETH) (ethAmount.map (· + 1/500)) then
      (.resp 400 [("error", .str "Insufficient balance")], [.getBalance])
    else
      match env.chain.gasPriceWei with
      | .error e => (.resp 500 [("error", .str e)], [.getBalance, .getFeeData])
      | .ok gp =>
        match env.chain.pendingNonce with
        | .error e => (.resp 500 [("error", .str e)],
            [.getBalance, .getFeeData, .getTransactionCount "pending"])
        | .ok n =>
          match parseEtherOpt ethAmount with
          | .error e => (.resp 500 [("error", .str e)],
              [.getBalance, .getFeeData, .getTransactionCount "pending"])
          | .ok v =>
            let tx : Tx :=
              { toAddr := destination, value := v, nonce := n,
                gasLimit := 21000, gasPrice := gp, chainId := 1 }
            match signTransaction tx with
            | .error e => (.resp 500 [("error", .str e)],
                [.getBalance, .getFeeData, .getTransactionCount "pending",
                 .signTransaction tx])
            | .ok signed =>
              match env.chain.broadcastHash with
              | .error e => (.resp 500 [("error", .str e)],
                  [.getBalance, .getFeeData, .getTransactionCount "pending",
                   .signTransaction tx, .broadcastTransaction signed])
              | .ok h =>
                match env.chain.waitReceipt with
                | .error e => (.resp 500 [("error", .str e)],
                    [.getBalance, .getFeeData, .getTransactionCount "pending",
                     .signTransaction tx, .broadcastTransaction signed,
                     .wait 1])
                | .ok r =>
                  (.resp 200 [("success", .bool true),
                      ("txHash", .str h),
                      ("amount", numField ethAmount),
                      ("blockNumber", .num r.blockNumber)],
                   [.getBalance, .getFeeData, .getTransactionCount "pending",
                    .signTransaction tx, .broadcastTransaction signed,
                    .wait 1])

/-- `const destination = to || toAddress || treasury` (line 380): note the
resolution order differs from the other variants. -/
def claimDestination (req : VariantReq) : Option String :=
  jsOrS (jsOrS req.toField req.toAddress) req.treasury

/-- `const ethAmount = parseFloat(amountETH) || 0.01` (line 381). -/
def claimAmount (req : VariantReq) : ℚ :=
  jsOrD (parseFloatJ req.amountETH) (1/100)

/-- `POST /claim-mev-profits` handler (lines 378–416). -/
def claimMevProfits (env : Env) (req : VariantReq) : Outcome × List Eff :=
  let destination := claimDestination req
  let ethAmount := claimAmount req
  match env.chain.balanceWei with
  | .error e => (.resp 500 [("error", .str e)], [.getBalance])
  | .ok w =>
    let balanceETH := formatEther w
    if balanceETH < ethAmount + 1/500 then
      (.resp 400 [("error", .str "Insufficient balance")], [.getBalance])
    else
      match env.chain.gasPriceWei with
      | .error e => (.resp 500 [("error", .str e)], [.getBalance, .getFeeData])
      | .ok gp =>
        match env.chain.pendingNonce with
        | .error e => (.resp 500 [("error", .str e)],
            [.getBalance, .getFeeData, .getTransactionCount "pending"])
        | .ok n =>
          let tx : Tx :=
            { toAddr := destination, value := ethAmount * 10 ^ 18, nonce := n,
              gasLimit := 21000, gasPrice := gp, chainId := 1 }
          match signTransaction tx with
          | .error e => (.resp 500 [("error", .str e)],
              [.getBalance, .getFeeData, .getTransactionCount "pending",
               .signTransaction tx])
          | .ok signed =>
            match env.chain.broadcastHash with
            | .error e => (.resp 500 [("error", .str e)],
                [.getBalance, .getFeeData, .getTransactionCount "pending",
                 .signTransaction tx, .broadcastTransaction signed])
            | .ok h =>
              match env.chain.waitReceipt with
              | .error e => (.resp 500 [("error", .str e)],
                  [.getBalance, .getFeeData, .getTransactionCount "pending",
                   .signTransaction tx, .broadcastTransaction signed, .wait 1])
              | .ok r =>
                (.resp 200 [("success", .bool true),
                    ("txHash", .str h),
                    ("amount", .num ethAmount),
                    ("blockNumber", .num r.blockNumber)],
                 [.getBalance, .getFeeData, .getTransactionCount "pending",
                  .signTransaction tx, .broadcastTransaction signed, .wait 1])

/-- Body of `POST /credit-earnings`. -/
structure CreditReq where
  amountUSD : JVal
  source : Option String

/-- `POST /credit-earnings` handler (lines 212–221), threading the
process-lifetime `earningsBalance` counter explicitly:
`earningsBalance += parseFloat(amountUSD) || 0`. -/
def creditEarnings (earningsBalance : ℚ) (req : CreditReq) : ℚ × Outcome :=
  let newBalance := earningsBalance + jsOrD (parseFloatJ req.amountUSD) 0
  (newBalance,
   .resp 200 [("success", .bool true), ("newBalance", .num newBalance)])

/-- `GET /earnings` handler (lines 419–426).  This handler has no
`try`/`catch`: a rejected `getBalance` call escapes the handler instead of
being converted to a JSON error response. -/
def getEarnings (earningsBalance : ℚ) (env : Env) : Outcome × List Eff :=
  match env.chain.balanceWei with
  | .error e => (.escaped e, [.getBalance])
  | .ok w =>
    (.resp 200 [("earningsUSD", .num earningsBalance),
        ("backendBalanceETH", .num (formatEther w)),
        ("backendBalanceUSD", .num (formatEther w * 3450))],
     [.getBalance])

/-- A valid address is in particular non-empty (it has length 42). -/
theorem ne_empty_of_isAddress {s : String} (h : isAddress s = true) : s ≠ "" := by
  intro he
  subst he
  exact absurd h (by decide)

/-- The submission sequence every transfer endpoint performs after its checks
pass: fetch fee data and the pending nonce, sign, broadcast, wait for one
confirmation. -/
def submitTrace (tx : Tx) : List Eff :=
  [.getBalance, .getFeeData, .getTransactionCount "pending",
   .signTransaction tx, .broadcastTransaction tx, .wait 1]

/-- C4: for every transfer request whose destination string is not a
syntactically valid address (both parameters being present), `/withdraw`
responds 400 `{error: "Invalid address"}` and the effect trace is empty: no
balance, fee, nonce, broadcast, or wait call reaches the chain client. -/
theorem C4_invalid_address (env : Env) (req : WithdrawReq) (s : String)
    (hs : req.toAddress = some s) (hne : s ≠ "")
    (ha : truthyJ req.amountETH = true) (hv : isAddress s = false) :
    withdraw env req = (.resp 400 [("error", JField.str "Invalid address")], []) := by
  simp [withdraw, hs, truthyS, hne, ha, hv]

/-- Witness for C4 at a concrete malformed destination. -/
theorem C4_invalid_address_witness :
    withdraw { walletAddress := "0xaaaaaaaaaaaaaaaaaaaaaaaaaaaaaaaaaaaaaaaa",
               chain := { balanceWei := .ok (5 * 10 ^ 17),
                          gasPriceWei := .ok 1000000000,
                          pendingNonce := .ok 7,
                          broadcastHash := .ok "0xhash",
                          waitReceipt := .ok ⟨100, 21000, 999⟩ } }
      { toAddress := some "not-an-address", amountETH := .str "1.0" } =
      (.resp 400 [("error", JField.str "Invalid address")], []) :=
  C4_invalid_address _ _ "not-an-address" rfl (by decide) (by decide) (by decide)

/-- C3: for every transfer request whose destination equals the wallet's own
address (both parameters present), `/withdraw` responds 400
`{error: "Cannot send to backend wallet"}` with an empty effect trace, so the
rejection happens before the balance is queried. -/
theorem C3_self_transfer (env : Env) (req : WithdrawReq)
    (hw : req.toAddress = some env.walletAddress)
    (ha : truthyJ req.amountETH = true)
    (hv : isAddress env.walletAddress = true) :
    withdraw env req =
      (.resp 400 [("error", JField.str "Cannot send to backend wallet")], []) := by
  simp [withdraw, hw, truthyS, ne_empty_of_isAddress hv, ha, hv]

/-- Witness for C3: destination = the wallet's own address, amount 1. -/
theorem C3_self_transfer_witness :
    withdraw { walletAddress := "0xaaaaaaaaaaaaaaaaaaaaaaaaaaaaaaaaaaaaaaaa",
               chain := { balanceWei := .ok (5 * 10 ^ 17),
                          gasPriceWei := .ok 1000000000,
                          pendingNonce := .ok 7,
                          broadcastHash := .ok "0xhash",
                          waitReceipt := .ok ⟨100, 21000, 999⟩ } }
      { toAddress := some "0xaaaaaaaaaaaaaaaaaaaaaaaaaaaaaaaaaaaaaaaa",
        amountETH := .num 1 } =
      (.resp 400 [("error", JField.str "Cannot send to backend wallet")], []) :=
  C3_self_transfer _ _ rfl (by decide) (by decide)

/-- C2: for every transfer request that passes the presence, address and
self-transfer checks but whose wallet balance is strictly below the parsed
amount, `/withdraw` responds 400
`{error: "Insufficient backend balance", balance: <current balance>}` and the
effect trace is exactly the balance query: nothing is signed or broadcast. -/
theorem C2_insufficient_balance (env : Env) (req : WithdrawReq) (s : String)
    (w : ℕ) (a : ℚ)
    (hs : req.toAddress = some s) (hv : isAddress s = true)
    (hself : (lowerStr s == lowerStr env.walletAddress) = false)
    (ha : truthyJ req.amountETH = true)
    (hw : env.chain.balanceWei = .ok w)
    (hp : parseFloatJ req.amountETH = some a)
    (hlt : formatEther w < a) :
    withdraw env req =
      (.resp 400 [("error", JField.str "Insufficient backend balance"),
                  ("balance", JField.num (formatEther w))],
       [.getBalance]) := by
  simp [withdraw, hs, truthyS, ne_empty_of_isAddress hv, ha, hv, hself, hw,
    floatLt, hp, hlt]

unseal Rat.mul Rat.inv Rat.add Rat.sub Rat.ofScientific in
/-- Witness for C2: the spec's scenario, balance 0.5 ETH and amount "1.0". -/
theorem C2_insufficient_balance_witness :
    withdraw { walletAddress := "0xaaaaaaaaaaaaaaaaaaaaaaaaaaaaaaaaaaaaaaaa",
               chain := { balanceWei := .ok (5 * 10 ^ 17),
                          gasPriceWei := .ok 1000000000,
                          pendingNonce := .ok 7,
                          broadcastHash := .ok "0xhash",
                          waitReceipt := .ok ⟨100, 21000, 999⟩ } }
      { toAddress := some "0xbbbbbbbbbbbbbbbbbbbbbbbbbbbbbbbbbbbbbbbb",
        amountETH := .str "1.0" } =
      (.resp 400 [("error", JField.str "Insufficient backend balance"),
                  ("balance", JField.num (formatEther (5 * 10 ^ 17)))],
       [.getBalance]) :=
  C2_insufficient_balance _ _ "0xbbbbbbbbbbbbbbbbbbbbbbbbbbbbbbbbbbbbbbbb"
    (5 * 10 ^ 17) 1 rfl (by decide) (by decide) (by decide) rfl (by decide)
    (by norm_num [formatEther])

/-- C7: for every transfer request that passes all precondition checks, the
transaction is built with the live fee data and the *pending* nonce (both
fetched after the balance check and immediately before construction, as the
trace order shows), a gas limit of exactly 21000 and chain id 1; it is then
signed, broadcast, and the handler waits for exactly one confirmation before
returning the success response. -/
theorem C7_success_path (env : Env) (req : WithdrawReq) (s : String)
    (w gp n : ℕ) (h : String) (r : Receipt) (a v : ℚ)
    (hs : req.toAddress = some s) (hv : isAddress s = true)
    (hself : (lowerStr s == lowerStr env.walletAddress) = false)
    (ha : truthyJ req.amountETH = true)
    (hw : env.chain.balanceWei = .ok w)
    (hp : parseFloatJ req.amountETH = some a)
    (hge : ¬ formatEther w < a)
    (hgp : env.chain.gasPriceWei = .ok gp)
    (hn : env.chain.pendingNonce = .ok n)
    (hpe : parseEtherJ req.amountETH = .ok v)
    (hbh : env.chain.broadcastHash = .ok h)
    (hwr : env.chain.waitReceipt = .ok r) :
    withdraw env req =
      (.resp 200 [("success", JField.bool true),
          ("txHash", JField.str h),
          ("from", JField.str env.walletAddress),
          ("to", JField.str s),
          ("amount", JField.val req.amountETH),
          ("blockNumber", JField.num r.blockNumber),
          ("gasUsed", JField.str (toString r.gasUsed)),
          ("effectiveGasPrice", JField.str (toString r.gasPrice))],
       submitTrace { toAddr := some s, value := v, nonce := n,
                     gasLimit := 21000, gasPrice := gp, chainId := 1 }) := by
  simp [withdraw, hs, truthyS, ne_empty_of_isAddress hv, ha, hv, hself, hw,
    floatLt, hp, hge, hgp, hn, hpe, signTransaction, hbh, hwr, submitTrace]

unseal Rat.mul Rat.inv Rat.add Rat.sub Rat.ofScientific in
/-- Witness for C7: a 0.1 ETH transfer out of a 0.5 ETH balance. -/
theorem C7_success_path_witness :
    withdraw { walletAddress := "0xaaaaaaaaaaaaaaaaaaaaaaaaaaaaaaaaaaaaaaaa",
               chain := { balanceWei := .ok (5 * 10 ^ 17),
                          gasPriceWei := .ok 1000000000,
                          pendingNonce := .ok 7,
                          broadcastHash := .ok "0xhash",
                          waitReceipt := .ok ⟨100, 21000, 999⟩ } }
      { toAddress := some "0xbbbbbbbbbbbbbbbbbbbbbbbbbbbbbbbbbbbbbbbb",
        amountETH := .str "0.1" } =
      (.resp 200 [("success", JField.bool true),
          ("txHash", JField.str "0xhash"),
          ("from", JField.str "0xaaaaaaaaaaaaaaaaaaaaaaaaaaaaaaaaaaaaaaaa"),
          ("to", JField.str "0xbbbbbbbbbbbbbbbbbbbbbbbbbbbbbbbbbbbbbbbb"),
          ("amount", JField.val (.str "0.1")),
          ("blockNumber", JField.num 100),
          ("gasUsed", JField.str (toString (21000 : ℕ))),
          ("effectiveGasPrice", JField.str (toString (999 : ℕ)))],
       submitTrace { toAddr := some "0xbbbbbbbbbbbbbbbbbbbbbbbbbbbbbbbbbbbbbbbb",
                     value := 10 ^ 17, nonce := 7, gasLimit := 21000,
                     gasPrice := 1000000000, chainId := 1 }) :=
  C7_success_path _ _ "0xbbbbbbbbbbbbbbbbbbbbbbbbbbbbbbbbbbbbbbbb"
    (5 * 10 ^ 17) 1000000000 7 "0xhash" ⟨100, 21000, 999⟩ (1/10) (10 ^ 17)
    rfl (by decide) (by decide) (by decide) rfl (by decide)
    (by norm_num [formatEther]) rfl rfl (by decide) rfl rfl

/-- C5 counterexample: the claim "every credit call preserves counter ≥ 0"
is false — `credit` performs no sign check, so crediting a negative
`amountUSD` from the initial counter 0 drives the counter negative. -/
theorem C5_counterexample :
    (creditEarnings 0 { amountUSD := .num (-50), source := some "mev-bot" }).1 < 0 := by
  norm_num [creditEarnings, jsOrD, parseFloatJ]

/-- C5 amended: the counter is mutated by addition only — `credit` adds the
coerced amount and nothing else touches the counter (`getEarnings` takes it
read-only) — and the counter stays non-negative provided every credited
amount parses to a non-negative value; the code itself never checks the
sign. -/
theorem C5_additive_nonneg (bal : ℚ) (req : CreditReq) :
    (creditEarnings bal req).1 = bal + jsOrD (parseFloatJ req.amountUSD) 0 ∧
    (0 ≤ bal → 0 ≤ jsOrD (parseFloatJ req.amountUSD) 0 →
      0 ≤ (creditEarnings bal req).1) := by
  refine ⟨rfl, fun h1 h2 => ?_⟩
  simpa [creditEarnings] using add_nonneg h1 h2

/-- Witness for the amended C5: crediting 50 from 0 keeps the counter
non-negative. -/
theorem C5_additive_nonneg_witness :
    0 ≤ (creditEarnings 0 { amountUSD := .num 50, source := some "x" }).1 :=
  (C5_additive_nonneg 0 { amountUSD := .num 50, source := some "x" }).2
    (by norm_num) (by norm_num [jsOrD, parseFloatJ])

/-- C8: `credit` adds the parsed amount to the counter (unparsable amounts
coerce to 0, leaving the counter unchanged) and reports the new total;
crediting 50 then 25 from 0 yields 75, and `GET /earnings` reports 75 as
`earningsUSD` regardless of the wallet balance `w`. -/
theorem C8_credit_then_read (bal : ℚ) (req : CreditReq) (env : Env) (w : ℕ)
    (hw : env.chain.balanceWei = .ok w) :
    (creditEarnings bal req).1 = bal + jsOrD (parseFloatJ req.amountUSD) 0 ∧
    (creditEarnings bal req).2 =
      .resp 200 [("success", JField.bool true),
        ("newBalance", JField.num (bal + jsOrD (parseFloatJ req.amountUSD) 0))] ∧
    (parseFloatJ req.amountUSD = none → (creditEarnings bal req).1 = bal) ∧
    (creditEarnings
        (creditEarnings 0 { amountUSD := .num 50, source := some "x" }).1
        { amountUSD := .num 25, source := some "y" }).1 = 75 ∧
    getEarnings 75 env =
      (.resp 200 [("earningsUSD", JField.num 75),
          ("backendBalanceETH", JField.num (formatEther w)),
          ("backendBalanceUSD", JField.num (formatEther w * 3450))],
       [.getBalance]) := by
  refine ⟨rfl, rfl, fun hnan => ?_, by norm_num [creditEarnings, jsOrD, parseFloatJ], ?_⟩
  · simp [creditEarnings, hnan, jsOrD]
  · simp [getEarnings, hw]

/-- Witness for C8 at the spec's scenario (balance 0.5 ETH): the two credits
yield 75. -/
theorem C8_credit_then_read_witness :
    (creditEarnings
        (creditEarnings 0 { amountUSD := .num 50, source := some "x" }).1
        { amountUSD := .num 25, source := some "y" }).1 = 75 :=
  (C8_credit_then_read 0 { amountUSD := .num 50, source := some "x" }
    { walletAddress := "0xaaaaaaaaaaaaaaaaaaaaaaaaaaaaaaaaaaaaaaaa",
      chain := { balanceWei := .ok (5 * 10 ^ 17),
                 gasPriceWei := .ok 1000000000,
                 pendingNonce := .ok 7,
                 broadcastHash := .ok "0xhash",
                 waitReceipt := .ok ⟨100, 21000, 999⟩ } }
    (5 * 10 ^ 17) rfl).2.2.2.1

/-- C6 (code bug): the stated propagation policy — every error is caught at
the request boundary and converted to a JSON error body — fails for
`GET /earnings`, the one `async` handler without `try`/`catch`: a rejected
balance query escapes the handler, while the same provider failure inside
`/withdraw` is caught and converted to a 500 JSON body. -/
theorem C6_earnings_error_escapes :
    getEarnings 0
      { walletAddress := "0xaaaaaaaaaaaaaaaaaaaaaaaaaaaaaaaaaaaaaaaa",
        chain := { balanceWei := .error "network error",
                   gasPriceWei := .ok 1000000000,
                   pendingNonce := .ok 7,
                   broadcastHash := .ok "0xhash",
                   waitReceipt := .ok ⟨100, 21000, 999⟩ } } =
      (.escaped "network error", [.getBalance]) ∧
    withdraw
      { walletAddress := "0xaaaaaaaaaaaaaaaaaaaaaaaaaaaaaaaaaaaaaaaa",
        chain := { balanceWei := .error "network error",
                   gasPriceWei := .ok 1000000000,
                   pendingNonce := .ok 7,
                   broadcastHash := .ok "0xhash",
                   waitReceipt := .ok ⟨100, 21000, 999⟩ } }
      { toAddress := some "0xbbbbbbbbbbbbbbbbbbbbbbbbbbbbbbbbbbbbbbbb",
        amountETH := .num 1 } =
      (.resp 500 [("error", JField.str "network error")], [.getBalance]) := by
  constructor
  · rfl
  · decide

/-- A wallet whose provider calls all succeed, with a 0.5 ETH balance;
used as a concrete instantiation point. -/
def envOk : Env :=
  { walletAddress := "0xaaaaaaaaaaaaaaaaaaaaaaaaaaaaaaaaaaaaaaaa",
    chain := { balanceWei := .ok (5 * 10 ^ 17),
               gasPriceWei := .ok 1000000000,
               pendingNonce := .ok 7,
               broadcastHash := .ok "0xhash",
               waitReceipt := .ok ⟨100, 21000, 999⟩ } }

/-- A `/fund-from-earnings`-style request body with every field absent. -/
def emptyReq : VariantReq :=
  { amountETH := .undef, amountUSD := .undef, treasury := none,
    toField := none, toAddress := none, percentage := .undef }

/-- C9: when a `/fund-from-earnings` request supplies none of `treasury`,
`to`, `toAddress`, the destination defaults to the wallet's own address and,
when the balance check passes and the chain calls succeed, a self-transfer is
built, signed and broadcast rather than rejected. -/
theorem C9_fund_defaults_to_self (env : Env) (req : VariantReq)
    (w gp n : ℕ) (h : String) (r : Receipt)
    (ht : req.treasury = none) (hto : req.toField = none)
    (hta : req.toAddress = none)
    (hv : isAddress env.walletAddress = true)
    (hw : env.chain.balanceWei = .ok w)
    (hge : ¬ formatEther w < fundAmount req + 1/500)
    (hgp : env.chain.gasPriceWei = .ok gp)
    (hn : env.chain.pendingNonce = .ok n)
    (hbh : env.chain.broadcastHash = .ok h)
    (hwr : env.chain.waitReceipt = .ok r) :
    fundDestination env.walletAddress req = some env.walletAddress ∧
    fundFromEarnings env req =
      (.resp 200 [("success", JField.bool true),
          ("txHash", JField.str h),
          ("from", JField.str env.walletAddress),
          ("to", strField (some env.walletAddress)),
          ("amount", JField.num (fundAmount req)),
          ("blockNumber", JField.num r.blockNumber)],
       submitTrace { toAddr := some env.walletAddress,
                     value := fundAmount req * 10 ^ 18, nonce := n,
                     gasLimit := 21000, gasPrice := gp, chainId := 1 }) := by
  have hd : fundDestination env.walletAddress req = some env.walletAddress := by
    simp [fundDestination, jsOrS, ht, hto, hta, truthyS]
  refine ⟨hd, ?_⟩
  simp [fundFromEarnings, hd, hw, hge, hgp, hn, signTransaction, hv, hbh, hwr,
    submitTrace]
  linarith [not_lt.1 hge]

unseal Rat.mul Rat.inv Rat.add Rat.sub Rat.ofScientific in
/-- Witness for C9: an empty request body against a funded wallet. -/
theorem C9_fund_defaults_to_self_witness :
    fundDestination envOk.walletAddress emptyReq = some envOk.walletAddress ∧
    fundFromEarnings envOk emptyReq =
      (.resp 200 [("success", JField.bool true),
          ("txHash", JField.str "0xhash"),
          ("from", JField.str envOk.walletAddress),
          ("to", strField (some envOk.walletAddress)),
          ("amount", JField.num (fundAmount emptyReq)),
          ("blockNumber", JField.num 100)],
       submitTrace { toAddr := some envOk.walletAddress,
                     value := fundAmount emptyReq * 10 ^ 18, nonce := 7,
                     gasLimit := 21000, gasPrice := 1000000000, chainId := 1 }) :=
  C9_fund_defaults_to_self envOk emptyReq (5 * 10 ^ 17) 1000000000 7 "0xhash"
    ⟨100, 21000, 999⟩ rfl rfl rfl (by decide) rfl
    (by norm_num [formatEther, fundAmount, jsOrD, jsOrN, parseFloatJ, emptyReq])
    rfl rfl rfl rfl

/-- C10: for `/withdraw-profits-to-treasury` requests without a `percentage`
field and for `/claim-mev-profits` requests, an `amountETH` that is missing,
unparsable, or zero defaults the transfer amount to 0.01 ETH, and when the
balance check passes (and the chain calls succeed) a transaction for 0.01 ETH
is submitted. -/
theorem C10_default_amount (env : Env) (req : VariantReq)
    (w gp n : ℕ) (h : String) (r : Receipt) (d : String)
    (hpct : req.percentage = .undef)
    (hpf : parseFloatJ req.amountETH = none ∨ parseFloatJ req.amountETH = some 0)
    (hd : profitsDestination req = some d)
    (hcd : claimDestination req = some d)
    (hdv : isAddress d = true)
    (hw : env.chain.balanceWei = .ok w)
    (hge : ¬ formatEther w < 1/100 + 1/500)
    (hgp : env.chain.gasPriceWei = .ok gp)
    (hn : env.chain.pendingNonce = .ok n)
    (hbh : env.chain.broadcastHash = .ok h)
    (hwr : env.chain.waitReceipt = .ok r) :
    claimAmount req = 1/100 ∧
    profitsAmount (formatEther w) req = some (1/100) ∧
    withdrawProfitsToTreasury env req =
      (.resp 200 [("success", JField.bool true),
          ("txHash", JField.str h),
          ("amount", JField.num (1/100)),
          ("blockNumber", JField.num r.blockNumber)],
       submitTrace { toAddr := some d, value := 1/100 * 10 ^ 18, nonce := n,
                     gasLimit := 21000, gasPrice := gp, chainId := 1 }) ∧
    claimMevProfits env req =
      (.resp 200 [("success", JField.bool true),
          ("txHash", JField.str h),
          ("amount", JField.num (1/100)),
          ("blockNumber", JField.num r.blockNumber)],
       submitTrace { toAddr := some d, value := 1/100 * 10 ^ 18, nonce := n,
                     gasLimit := 21000, gasPrice := gp, chainId := 1 }) := by
  have hca : claimAmount req = 1/100 := by
    rcases hpf with h0 | h0 <;> simp [claimAmount, jsOrD, h0]
  have hpa : profitsAmount (formatEther w) req = some (1/100) := by
    rcases hpf with h0 | h0 <;> simp [profitsAmount, hpct, truthyJ, jsOrD, h0]
  refine ⟨hca, hpa, ?_, ?_⟩
  · simp [withdrawProfitsToTreasury, hw, hpa, floatLt, hge, hgp, hn,
      parseEtherOpt, hd, signTransaction, hdv, hbh, hwr, submitTrace, numField]
    linarith [not_lt.1 hge]
  · simp [claimMevProfits, hca, hcd, hw, hge, hgp, hn, signTransaction, hdv,
      hbh, hwr, submitTrace]
    linarith [not_lt.1 hge]

/-- A request body that names only a treasury destination; amounts and
percentage are all absent. -/
def treasuryReq : VariantReq :=
  { amountETH := .undef, amountUSD := .undef,
    treasury := some "0xbbbbbbbbbbbbbbbbbbbbbbbbbbbbbbbbbbbbbbbb",
    toField := none, toAddress := none, percentage := .undef }

/-- Witness for C10: with `amountETH` absent, both endpoints move 0.01 ETH. -/
theorem C10_default_amount_witness :
    claimAmount treasuryReq = 1/100 ∧
    profitsAmount (formatEther (5 * 10 ^ 17)) treasuryReq = some (1/100) ∧
    withdrawProfitsToTreasury envOk treasuryReq =
      (.resp 200 [("success", JField.bool true),
          ("txHash", JField.str "0xhash"),
          ("amount", JField.num (1/100)),
          ("blockNumber", JField.num 100)],
       submitTrace { toAddr := some "0xbbbbbbbbbbbbbbbbbbbbbbbbbbbbbbbbbbbbbbbb",
                     value := 1/100 * 10 ^ 18, nonce := 7,
                     gasLimit := 21000, gasPrice := 1000000000, chainId := 1 }) ∧
    claimMevProfits envOk treasuryReq =
      (.resp 200 [("success", JField.bool true),
          ("txHash", JField.str "0xhash"),
          ("amount", JField.num (1/100)),
          ("blockNumber", JField.num 100)],
       submitTrace { toAddr := some "0xbbbbbbbbbbbbbbbbbbbbbbbbbbbbbbbbbbbbbbbb",
                     value := 1/100 * 10 ^ 18, nonce := 7,
                     gasLimit := 21000, gasPrice := 1000000000, chainId := 1 }) :=
  C10_default_amount envOk treasuryReq (5 * 10 ^ 17) 1000000000 7 "0xhash"
    ⟨100, 21000, 999⟩ "0xbbbbbbbbbbbbbbbbbbbbbbbbbbbbbbbbbbbbbbbb"
    rfl (Or.inl rfl) rfl rfl (by decide) rfl (by norm_num [formatEther])
    rfl rfl rfl rfl

/-- A request body whose only destination field is a malformed treasury
address. -/
def badDestReq : VariantReq :=
  { amountETH := .undef, amountUSD := .undef,
    treasury := some "not-an-address",
    toField := none, toAddress := none, percentage := .undef }

unseal Rat.mul Rat.inv Rat.add Rat.sub Rat.ofScientific in
/-- C1 counterexample: the four treasury-moving endpoints do not enforce the
same precondition checks as `/withdraw`.  Concretely: (i) a
`/fund-from-earnings` request with no destination resolves to the wallet's
own address yet is not rejected as a self-transfer, while `/withdraw` rejects
the same resolved destination/amount before any chain call; (ii) a
`/claim-mev-profits` request with a malformed destination is not answered
with `Invalid address` (ethers only throws at signing time, after balance,
fee and nonce were fetched, producing a 500), while `/withdraw` rejects it up
front; (iii) the variants' balance threshold is `amount + 0.002`, so an
0.499 ETH claim from a 0.5 ETH wallet is rejected as insufficient although
`/withdraw` does not consider that balance insufficient. -/
theorem C1_counterexample :
    fundDestination envOk.walletAddress emptyReq = some envOk.walletAddress ∧
    fundFromEarnings envOk emptyReq ≠
      (.resp 400 [("error", JField.str "Cannot send to backend wallet")], []) ∧
    withdraw envOk { toAddress := some envOk.walletAddress,
                     amountETH := .num (1/100) } =
      (.resp 400 [("error", JField.str "Cannot send to backend wallet")], []) ∧
    claimMevProfits envOk badDestReq ≠
      (.resp 400 [("error", JField.str "Invalid address")], []) ∧
    withdraw envOk { toAddress := some "not-an-address",
                     amountETH := .num (1/100) } =
      (.resp 400 [("error", JField.str "Invalid address")], []) ∧
    claimMevProfits envOk { badDestReq with
        treasury := some "0xbbbbbbbbbbbbbbbbbbbbbbbbbbbbbbbbbbbbbbbb",
        amountETH := .num (499/1000) } =
      (.resp 400 [("error", JField.str "Insufficient balance")], [.getBalance]) ∧
    withdraw envOk { toAddress := some "0xbbbbbbbbbbbbbbbbbbbbbbbbbbbbbbbbbbbbbbbb",
                     amountETH := .num (499/1000) } ≠
      (.resp 400 [("error", JField.str "Insufficient backend balance"),
                  ("balance", JField.num (formatEther (5 * 10 ^ 17)))],
       [.getBalance]) := by
  refine ⟨by decide, by decide, by decide, by decide, by decide, by decide, by decide⟩

/-- C1 amended: the four treasury-moving endpoints share `/withdraw`'s
submission behaviour — once their balance check passes they fetch fee data
and the pending nonce, build a transaction with gas limit 21000 and chain
id 1 for the resolved destination and amount, sign it, broadcast it and wait
for one confirmation (the trace `submitTrace` is `/withdraw`'s) — and each
performs a balance-sufficiency check, but against the threshold
`amount + 0.002` rather than `/withdraw`'s bare `amount`; none of them
performs `/withdraw`'s address-validity or self-transfer checks (see the
counterexample), so they differ from `/withdraw` in more than how
destination and amount are resolved. -/
theorem C1_variants_share_submission (env : Env) (w gp n : ℕ) (h : String)
    (r : Receipt)
    (hw : env.chain.balanceWei = .ok w)
    (hgp : env.chain.gasPriceWei = .ok gp)
    (hn : env.chain.pendingNonce = .ok n)
    (hbh : env.chain.broadcastHash = .ok h)
    (hwr : env.chain.waitReceipt = .ok r) :
    (∀ req d a, convertDestination req = some d → isAddress d = true →
      convertAmount req = some a → ¬ formatEther w < a + 1/500 →
      convertEarningsToEth env req =
        (.resp 200 [("success", JField.bool true),
            ("txHash", JField.str h),
            ("from", JField.str env.walletAddress),
            ("to", strField (some d)),
            ("amount", JField.num a),
            ("amountUSD", JField.num (a * 3450)),
            ("blockNumber", JField.num r.blockNumber),
            ("gasUsed", JField.str (toString r.gasUsed))],
         submitTrace { toAddr := some d, value := a * 10 ^ 18, nonce := n,
                       gasLimit := 21000, gasPrice := gp, chainId := 1 })) ∧
    (∀ req a, truthyS (convertDestination req) = true →
      convertAmount req = some a → formatEther w < a + 1/500 →
      convertEarningsToEth env req =
        (.resp 400 [("error", JField.str "Insufficient backend balance for conversion"),
            ("balance", JField.num (formatEther w)),
            ("required", JField.num (a + 1/500))],
         [.getBalance])) ∧
    (∀ req d, fundDestination env.walletAddress req = some d →
      isAddress d = true → ¬ formatEther w < fundAmount req + 1/500 →
      fundFromEarnings env req =
        (.resp 200 [("success", JField.bool true),
            ("txHash", JField.str h),
            ("from", JField.str env.walletAddress),
            ("to", strField (some d)),
            ("amount", JField.num (fundAmount req)),
            ("blockNumber", JField.num r.blockNumber)],
         submitTrace { toAddr := some d, value := fundAmount req * 10 ^ 18,
                       nonce := n, gasLimit := 21000, gasPrice := gp,
                       chainId := 1 })) ∧
    (∀ req, formatEther w < fundAmount req + 1/500 →
      fundFromEarnings env req =
        (.resp 400 [("error", JField.str "Insufficient backend balance"),
            ("balance", JField.num (formatEther w))],
         [.getBalance])) ∧
    (∀ req d a, profitsDestination req = some d → isAddress d = true →
      profitsAmount (formatEther w) req = some a →
      ¬ formatEther w < a + 1/500 →
      withdrawProfitsToTreasury env req =
        (.resp 200 [("success", JField.bool true),
            ("txHash", JField.str h),
            ("amount", JField.num a),
            ("blockNumber", JField.num r.blockNumber)],
         submitTrace { toAddr := some d, value := a * 10 ^ 18, nonce := n,
                       gasLimit := 21000, gasPrice := gp, chainId := 1 })) ∧
    (∀ req a, profitsAmount (formatEther w) req = some a →
      formatEther w < a + 1/500 →
      withdrawProfitsToTreasury env req =
        (.resp 400 [("error", JField.str "Insufficient balance")],
         [.getBalance])) ∧
    (∀ req d, claimDestination req = some d → isAddress d = true →
      ¬ formatEther w < claimAmount req + 1/500 →
      claimMevProfits env req =
        (.resp 200 [("success", JField.bool true),
            ("txHash", JField.str h),
            ("amount", JField.num (claimAmount req)),
            ("blockNumber", JField.num r.blockNumber)],
         submitTrace { toAddr := some d, value := claimAmount req * 10 ^ 18,
                       nonce := n, gasLimit := 21000, gasPrice := gp,
                       chainId := 1 })) ∧
    (∀ req, formatEther w < claimAmount req + 1/500 →
      claimMevProfits env req =
        (.resp 400 [("error", JField.str "Insufficient balance")],
         [.getBalance])) := by
  refine ⟨?_, ?_, ?_, ?_, ?_, ?_, ?_, ?_⟩
  · intro req d a hd hdv ha hge
    simp [convertEarningsToEth, hd, truthyS, ne_empty_of_isAddress hdv, hw,
      floatLt, ha, hge, hgp, hn, parseEtherOpt, signTransaction, hdv, hbh,
      hwr, submitTrace, numField, strField]
    linarith [not_lt.1 hge]
  · intro req a hd ha hlt
    simp [convertEarningsToEth, hd, hw, floatLt, ha, hlt, numField]
    intro hc
    exfalso
    linarith
  · intro req d hd hdv hge
    simp [fundFromEarnings, hd, hw, hge, hgp, hn, signTransaction, hdv, hbh,
      hwr, submitTrace, strField]
    linarith [not_lt.1 hge]
  · intro req hlt
    simp [fundFromEarnings, hw, hlt]
    intro hc
    exfalso
    linarith
  · intro req d a hd hdv ha hge
    simp [withdrawProfitsToTreasury, hw, ha, floatLt, hge, hgp, hn,
      parseEtherOpt, hd, signTransaction, hdv, hbh, hwr, submitTrace,
      numField]
    linarith [not_lt.1 hge]
  · intro req a ha hlt
    simp [withdrawProfitsToTreasury, hw, ha, floatLt, hlt]
    intro hc
    exfalso
    linarith
  · intro req d hd hdv hge
    simp [claimMevProfits, hd, hw, hge, hgp, hn, signTransaction, hdv, hbh,
      hwr, submitTrace]
    linarith [not_lt.1 hge]
  · intro req hlt
    simp [claimMevProfits, hw, hlt]
    intro hc
    exfalso
    linarith

unseal Rat.mul Rat.inv Rat.add Rat.sub Rat.ofScientific in
/-- Witness for the amended C1: a 0.1 ETH conversion to a valid treasury
address submits with the shared trace, and a 1 ETH claim from a 0.5 ETH
wallet hits the variants' balance check. -/
theorem C1_variants_share_submission_witness :
    convertEarningsToEth envOk { treasuryReq with amountETH := .num (1/10) } =
      (.resp 200 [("success", JField.bool true),
          ("txHash", JField.str "0xhash"),
          ("from", JField.str envOk.walletAddress),
          ("to", strField (some "0xbbbbbbbbbbbbbbbbbbbbbbbbbbbbbbbbbbbbbbbb")),
          ("amount", JField.num (1/10)),
          ("amountUSD", JField.num (1/10 * 3450)),
          ("blockNumber", JField.num 100),
          ("gasUsed", JField.str (toString (21000 : ℕ)))],
       submitTrace { toAddr := some "0xbbbbbbbbbbbbbbbbbbbbbbbbbbbbbbbbbbbbbbbb",
                     value := 1/10 * 10 ^ 18, nonce := 7, gasLimit := 21000,
                     gasPrice := 1000000000, chainId := 1 }) ∧
    claimMevProfits envOk { treasuryReq with amountETH := .num 1 } =
      (.resp 400 [("error", JField.str "Insufficient balance")], [.getBalance]) :=
  ⟨(C1_variants_share_submission envOk (5 * 10 ^ 17) 1000000000 7 "0xhash"
      ⟨100, 21000, 999⟩ rfl rfl rfl rfl rfl).1
      { treasuryReq with amountETH := .num (1/10) }
      "0xbbbbbbbbbbbbbbbbbbbbbbbbbbbbbbbbbbbbbbbb" (1/10)
      (by decide) (by decide) (by decide) (by norm_num [formatEther]),
   (C1_variants_share_submission envOk (5 * 10 ^ 17) 1000000000 7 "0xhash"
      ⟨100, 21000, 999⟩ rfl rfl rfl rfl rfl).2.2.2.2.2.2.2
      { treasuryReq with amountETH := .num 1 }
      (by norm_num [formatEther, claimAmount, jsOrD, parseFloatJ, treasuryReq])⟩
